import Mathlib

/-!
Shallow embedding of the FilmFinder recommendation flow:
the quiz validator and POST orchestrator (src/app/api/recommend/route.ts),
the AI client (src/app/lib/ai-service.ts) and the TMDB enrichment client
(src/app/lib/tmdb-service.ts).

JavaScript numbers are modelled as rationals; strings as Lean strings.
External effects (the generative-AI call and the three TMDB HTTP requests)
are parameters of the embedding: each theorem quantifies over, or fixes,
the outcome of those requests. JSON.parse is likewise a parameter
(a function from the extracted text span to an optional JSON value).
-/

namespace FilmFinder

/-! ### JSON values and JavaScript-semantics helpers -/

/-- A decoded JSON value (the result of JSON.parse). -/
inductive JsonValue where
  | null : JsonValue
  | bool : Bool → JsonValue
  | num : ℚ → JsonValue
  | str : String → JsonValue
  | arr : List JsonValue → JsonValue
  | obj : List (String × JsonValue) → JsonValue

/-- JavaScript truthiness of a JSON value.  null, false, 0 and the empty
string are falsy; every array and object is truthy. -/
def JsonValue.truthy : JsonValue → Bool
  | .null => false
  | .bool b => b
  | .num q => q.num != 0
  | .str s => s != ""
  | .arr _ => true
  | .obj _ => true

/-- Truthiness of an optional value; a missing value (JS undefined) is falsy. -/
def truthyOpt : Option JsonValue → Bool
  | none => false
  | some v => v.truthy

/-- Array.isArray on an optional value. -/
def isArrayOpt : Option JsonValue → Bool
  | some (.arr _) => true
  | _ => false

/-- First binding of a key in a JSON object's field list (JSON.parse yields
objects with unique keys, so first- vs last-binding is immaterial). -/
def lookupField : List (String × JsonValue) → String → Option JsonValue
  | [], _ => none
  | (k, v) :: rest, key => if k = key then some v else lookupField rest key

/-- JS property access `v[key]`: defined on objects, undefined elsewhere. -/
def JsonValue.getField : JsonValue → String → Option JsonValue
  | .obj fs, key => lookupField fs key
  | _, _ => none

/-- JS typeof: null, arrays and objects all report "object". -/
def JsonValue.jsTypeof : JsonValue → String
  | .null => "object"
  | .bool _ => "boolean"
  | .num _ => "number"
  | .str _ => "string"
  | .arr _ => "object"
  | .obj _ => "object"

/-- Whitespace stripped by String.prototype.trim (the ASCII part, which
covers every string these theorems touch). -/
def trimChar (c : Char) : Bool :=
  c = ' ' || c = '\t' || c = '\n' || c = '\r' || c = '\x0b' || c = '\x0c'

/-- String.prototype.trim. -/
def trimString (s : String) : String :=
  (((s.data.dropWhile trimChar).reverse.dropWhile trimChar).reverse).asString

/-- Substring test on character lists (JS String.prototype.includes). -/
def listIncludes (hay needle : List Char) : Bool :=
  (List.range (hay.length + 1)).any fun i => (hay.drop i).take needle.length == needle

/-- JS `hay.includes(needle)`. -/
def strIncludes (hay needle : String) : Bool :=
  listIncludes hay.data needle.data

/-- Math.max restricted to the numeric (non-NaN) case. -/
def jsMax (a b : ℚ) : ℚ := if a ≤ b then b else a

/-- Math.min restricted to the numeric (non-NaN) case. -/
def jsMin (a b : ℚ) : ℚ := if a ≤ b then a else b

/-- Math.round (round half towards positive infinity), computed with
integer arithmetic: round(q) = floor(q + 1/2) = (2 num + den) fdiv (2 den). -/
def jsRound (q : ℚ) : ℤ :=
  Int.ediv (2 * q.num + (q.den : ℤ)) ((2 * q.den : ℕ) : ℤ)

/-- `Math.round(q * 10) / 10` — rounding to one decimal, as in the TMDB
rating assembly, written with normalised-rational primitives. -/
def roundTo1 (q : ℚ) : ℚ :=
  mkRat (jsRound (mkRat (q.num * 10) q.den)) 10

/-! ### AI service (src/app/lib/ai-service.ts) -/

/-- The structured movie suggestion extracted from the model reply
(interface AIRecommendation in src/app/types/index.ts). -/
structure AIRecommendation where
  movieTitle : String
  year : Option ℚ
  explanation : String
  matchReasons : List String
  confidenceScore : ℚ
  alternativeTitle : Option String

/-- The fixed fallback recommendation substituted on any parse failure. -/
def fallbackRecommendation : AIRecommendation where
  movieTitle := "The Shawshank Redemption"
  year := some 1994
  explanation := "A universally acclaimed drama that resonates with viewers seeking hope, friendship, and redemption."
  matchReasons := ["Universally loved", "Emotionally satisfying", "Great storytelling"]
  confidenceScore := mkRat 7 10
  alternativeTitle := none

/-- The span matched by the greedy regex /\x7b[\s\S]*\x7d/ on a character
list: from the first opening brace to the last closing brace, if the
latter comes after the former. -/
def extractBraceSpan (cs : List Char) : Option (List Char) :=
  let afterOpen := cs.dropWhile fun c => c ≠ '\x7b'
  let span := (afterOpen.reverse.dropWhile fun c => c ≠ '\x7d').reverse
  if span.isEmpty then none else some span

/-- The brace-delimited JSON span extracted from the raw model reply. -/
def extractJsonSpan (text : String) : Option String :=
  (extractBraceSpan text.data).map List.asString

/-- `v.trim()`: succeeds only on strings; on any other value the JS call
throws a TypeError (caught by the surrounding try, producing the fallback). -/
def jsTrim : JsonValue → Option String
  | .str s => some (trimString s)
  | _ => none

/-- `array.map(r => r.trim())` with exception propagation. -/
def trimAll : List JsonValue → Option (List String)
  | [] => some []
  | v :: vs =>
    match jsTrim v, trimAll vs with
    | some s, some ss => some (s :: ss)
    | _, _ => none

/-- `parsed.confidenceScore || 0.8` fed through the [0,1] clamp.  A falsy
score (absent, 0, empty string, false, null) becomes the 0.8 default; a
numeric score is clamped.  A truthy non-numeric score, which real JS would
coerce (possibly to NaN), is outside this rational embedding and is
modelled as a parse failure. -/
def confValue : Option JsonValue → Option ℚ
  | none => some (mkRat 4 5)
  | some v =>
    if v.truthy then
      match v with
      | .num q => some (jsMin (jsMax q 0) 1)
      | _ => none
    else some (mkRat 4 5)

/-- `parsed.year || undefined`.  A truthy non-numeric year (which TS types
forbid but JSON could carry) is modelled as a parse failure. -/
def yearValue : Option JsonValue → Option (Option ℚ)
  | none => some none
  | some v =>
    if v.truthy then
      match v with
      | .num q => some (some q)
      | _ => none
    else some none

/-- `parsed.alternativeTitle?.trim()`: undefined/null short-circuit to
undefined; a string is trimmed; any other value throws at the trim call. -/
def altValue : Option JsonValue → Option (Option String)
  | none => some none
  | some .null => some none
  | some (.str s) => some (some (trimString s))
  | some _ => none

/-- The try-block of parseAIResponse: extract the brace span, JSON.parse it
(the `decode` parameter), check the required fields, and build the
recommendation; `none` is a thrown-and-caught failure. -/
def parseTry (decode : String → Option JsonValue) (text : String) :
    Option AIRecommendation :=
  (extractJsonSpan text).bind fun span =>
  (decode span).bind fun parsed =>
    if !truthyOpt (parsed.getField "movieTitle") ||
       !truthyOpt (parsed.getField "explanation") ||
       !truthyOpt (parsed.getField "matchReasons") ||
       !isArrayOpt (parsed.getField "matchReasons") then
      none
    else
      ((parsed.getField "movieTitle").bind jsTrim).bind fun title =>
      (yearValue (parsed.getField "year")).bind fun year =>
      ((parsed.getField "explanation").bind jsTrim).bind fun explanation =>
      (match parsed.getField "matchReasons" with
        | some (.arr vs) => trimAll vs
        | _ => none).bind fun reasons =>
      (confValue (parsed.getField "confidenceScore")).bind fun conf =>
      (altValue (parsed.getField "alternativeTitle")).map fun alt =>
        ⟨title, year, explanation, reasons, conf, alt⟩

/-- parseAIResponse: any failure inside the try-block is caught and replaced
by the fixed fallback recommendation. -/
def parseAIResponse (decode : String → Option JsonValue) (text : String) :
    AIRecommendation :=
  (parseTry decode text).getD fallbackRecommendation

/-- Outcome of the external generative-AI call: either a raw text reply or
a thrown error (whose optional message the catch-block inspects). -/
inductive AIOutcome where
  | reply (text : String)
  | failure (message : Option String)

/-- Error message thrown on a 403 from the AI provider. -/
def authFailedMsg : String :=
  "AI service authentication failed. Please check your API key."

/-- Error message thrown on a 429 from the AI provider. -/
def rateLimitMsg : String :=
  "AI service rate limit exceeded. Please try again later."

/-- Error message thrown on any other AI-call failure. -/
def genericAIMsg : String :=
  "Failed to generate movie recommendation. Please try again."

/-- `error.message?.includes(needle)` — false when the error has no message. -/
def includesOpt (msg : Option String) (needle : String) : Bool :=
  match msg with
  | none => false
  | some m => strIncludes m needle

/-- generateRecommendation.  The prompt built from the quiz data only shapes
the external request, whose reply is the `outcome` parameter; a successful
reply is parsed (never throwing), and a thrown transport error is re-thrown
as one of three fixed messages. -/
def generateRecommendation (decode : String → Option JsonValue)
    (outcome : AIOutcome) : Except String AIRecommendation :=
  match outcome with
  | .reply text => .ok (parseAIResponse decode text)
  | .failure msg =>
    if includesOpt msg "403 Forbidden" then .error authFailedMsg
    else if includesOpt msg "429" then .error rateLimitMsg
    else .error genericAIMsg

/-! ### TMDB service (src/app/lib/tmdb-service.ts) -/

/-- One result of the TMDB search endpoint (the fields the code reads). -/
structure TMDBMovie where
  id : ℤ
  title : String

/-- A genre entry of the details record. -/
structure TMDBGenre where
  id : ℤ
  name : String

/-- The TMDB details record (the fields buildMovieRecommendation reads).
`imdb_id` is optional because the provider may omit it; the code guards it
with a truthiness check. -/
structure TMDBMovieDetails where
  id : ℤ
  title : String
  overview : String
  poster_path : Option String
  backdrop_path : Option String
  release_date : String
  genres : List TMDBGenre
  vote_average : ℚ
  vote_count : ℤ
  runtime : ℚ
  imdb_id : Option String

/-- A cast member of the TMDB credits record (the fields the code reads). -/
structure TMDBCastMember where
  name : String
  character : String
  profile_path : Option String

/-- The TMDB credits record (the crew list is never read). -/
structure TMDBCredits where
  id : ℤ
  cast : List TMDBCastMember

/-- An assembled cast entry of the final recommendation. -/
structure CastEntry where
  name : String
  character : String
  profileUrl : Option String

/-- The final enriched recommendation (interface MovieRecommendation). -/
structure MovieRecommendation where
  explanation : String
  matchReasons : List String
  confidenceScore : ℚ
  tmdbId : ℤ
  title : String
  overview : String
  posterUrl : Option String
  backdropUrl : Option String
  releaseDate : String
  genres : List String
  rating : ℚ
  voteCount : ℤ
  runtime : ℚ
  cast : List CastEntry
  tmdbUrl : String
  imdbUrl : Option String

/-- Base URL for w500 images. -/
def TMDB_IMAGE_BASE_URL : String := "https://image.tmdb.org/t/p/w500"

/-- Base URL for w1280 images. -/
def TMDB_IMAGE_BASE_URL_LARGE : String := "https://image.tmdb.org/t/p/w1280"

/-- `path ? base + path : null` — the truthiness guard used for poster,
backdrop and profile images (an empty-string path is falsy). -/
def imageUrl (base : String) (path : Option String) : Option String :=
  match path with
  | some p => if p ≠ "" then some (base ++ p) else none
  | none => none

/-- buildMovieRecommendation: merge the AI fields with the TMDB record. -/
def buildMovieRecommendation (ai : AIRecommendation)
    (movieDetails : TMDBMovieDetails) (credits : TMDBCredits) :
    MovieRecommendation where
  explanation := ai.explanation
  matchReasons := ai.matchReasons
  confidenceScore := ai.confidenceScore
  tmdbId := movieDetails.id
  title := movieDetails.title
  overview := movieDetails.overview
  posterUrl := imageUrl TMDB_IMAGE_BASE_URL movieDetails.poster_path
  backdropUrl := imageUrl TMDB_IMAGE_BASE_URL_LARGE movieDetails.backdrop_path
  releaseDate := movieDetails.release_date
  genres := movieDetails.genres.map (·.name)
  rating := roundTo1 movieDetails.vote_average
  voteCount := movieDetails.vote_count
  runtime := movieDetails.runtime
  cast := (credits.cast.take 5).map fun m =>
    ⟨m.name, m.character, imageUrl TMDB_IMAGE_BASE_URL m.profile_path⟩
  tmdbUrl := "https://www.themoviedb.org/movie/" ++ toString movieDetails.id
  imdbUrl :=
    match movieDetails.imdb_id with
    | some i => if i ≠ "" then some ("https://www.imdb.com/title/" ++ i) else none
    | none => none

/-- Outcome of one fetch: the decoded JSON body on response.ok, or the
HTTP status of a non-ok response. -/
inductive FetchOutcome (α : Type) where
  | ok (value : α)
  | httpError (status : ℕ)

/-- Body of the TMDB search endpoint; `results` may be missing
(`data.results || []`). -/
structure SearchBody where
  results : Option (List TMDBMovie)

/-- searchMovie: a non-ok response throws "TMDB search error: status";
otherwise the result list (defaulting to empty).  The title and year
parameters only shape the query string of the request whose outcome is
the `search` parameter. -/
def searchMovie (search : String → Option ℚ → FetchOutcome SearchBody)
    (title : String) (year : Option ℚ) : Except String (List TMDBMovie) :=
  match search title year with
  | .httpError status => .error ("TMDB search error: " ++ toString status)
  | .ok body => .ok (body.results.getD [])

/-- getMovieDetails: a non-ok response throws "TMDB movie details error". -/
def getMovieDetails (details : ℤ → FetchOutcome TMDBMovieDetails)
    (movieId : ℤ) : Except String TMDBMovieDetails :=
  match details movieId with
  | .httpError status => .error ("TMDB movie details error: " ++ toString status)
  | .ok d => .ok d

/-- getMovieCredits: a non-ok response throws "TMDB credits error". -/
def getMovieCredits (credits : ℤ → FetchOutcome TMDBCredits)
    (movieId : ℤ) : Except String TMDBCredits :=
  match credits movieId with
  | .httpError status => .error ("TMDB credits error: " ++ toString status)
  | .ok c => .ok c

/-- enrichMovieWithTMDB: search by the AI title (and optional year), fail
with "Movie not found" on an empty result list, take the first result,
fetch details and credits (concurrent in the source, joined before
assembly; modelled sequentially), and assemble the recommendation.  The
catch-block only logs and re-throws, so it is the identity on errors. -/
def enrichMovieWithTMDB (tmdbKey : Option String)
    (search : String → Option ℚ → FetchOutcome SearchBody)
    (details : ℤ → FetchOutcome TMDBMovieDetails)
    (credits : ℤ → FetchOutcome TMDBCredits)
    (ai : AIRecommendation) : Except String MovieRecommendation :=
  match tmdbKey with
  | none => .error "TMDB API key not configured"
  | some _ =>
    match searchMovie search ai.movieTitle ai.year with
    | .error e => .error e
    | .ok [] => .error ("Movie not found: " ++ ai.movieTitle)
    | .ok (movie :: _) =>
      match getMovieDetails details movie.id with
      | .error e => .error e
      | .ok movieDetails =>
        match getMovieCredits credits movie.id with
        | .error e => .error e
        | .ok movieCredits =>
          .ok (buildMovieRecommendation ai movieDetails movieCredits)

/-! ### Recommendation route (src/app/api/recommend/route.ts) -/

/-- Required fields of a mood quiz, in the order the validator checks them. -/
def moodRequired : List String :=
  ["currentMood", "desiredFeeling", "genre", "intensity", "setting",
   "companionType", "duration"]

/-- Required fields of a likes quiz, in the order the validator checks them. -/
def likesRequired : List String :=
  ["favoriteMovies", "favoriteGenres", "favoriteActors", "dislikedGenres",
   "preferredDecade", "viewingContext"]

/-- The likes fields additionally required to be arrays, in check order. -/
def likesArrayFields : List String :=
  ["favoriteMovies", "favoriteGenres", "favoriteActors", "dislikedGenres"]

/-- Strict equality of an optional JSON value with a string literal
(`typedData.type === tag`). -/
def isTag (v : Option JsonValue) (tag : String) : Bool :=
  match v with
  | some (.str s) => s = tag
  | _ => false

/-- `responses[field]` as read by the validator loops. -/
def respField (data : JsonValue) (field : String) : Option JsonValue :=
  (data.getField "responses").bind fun r => r.getField field

/-- validateQuizData: the input must be a truthy value of typeof "object",
carry truthy `type` and `responses`, have tag "mood" or "likes", and pass
the per-tag loops, each of which throws on the first offending field. -/
def validateQuizData (data : JsonValue) : Except String JsonValue :=
  if !data.truthy || data.jsTypeof != "object" then
    .error "Invalid quiz data: must be an object"
  else if !truthyOpt (data.getField "type") || !truthyOpt (data.getField "responses") then
    .error "Invalid quiz data: missing type or responses"
  else if !isTag (data.getField "type") "mood" && !isTag (data.getField "type") "likes" then
    .error "Invalid quiz data: type must be \x22mood\x22 or \x22likes\x22"
  else if isTag (data.getField "type") "mood" then
    match moodRequired.find? (fun f => !truthyOpt (respField data f)) with
    | some f => .error ("Invalid mood quiz data: missing " ++ f)
    | none => .ok data
  else
    match likesRequired.find? (fun f => !truthyOpt (respField data f)) with
    | some f => .error ("Invalid likes quiz data: missing " ++ f)
    | none =>
      match likesArrayFields.find? (fun f => !isArrayOpt (respField data f)) with
      | some f => .error ("Invalid likes quiz data: " ++ f ++ " must be an array")
      | none => .ok data

/-- The shape a payload must have for the validator to accept it, written
from the spec's contract, amended by the truthiness observation: the body
is an (truthy) object, carries a recognised tag, every tag-required field
is present with a truthy value, and the four likes list fields are arrays. -/
def quizShapeOk (data : JsonValue) : Bool :=
  data.truthy && data.jsTypeof == "object" &&
  truthyOpt (data.getField "type") && truthyOpt (data.getField "responses") &&
  ((isTag (data.getField "type") "mood" &&
      moodRequired.all fun f => truthyOpt (respField data f)) ||
   (isTag (data.getField "type") "likes" &&
      (likesRequired.all fun f => truthyOpt (respField data f)) &&
      (likesArrayFields.all fun f => isArrayOpt (respField data f))))

/-- The five error codes of the failure envelope. -/
inductive ErrorCode where
  | INVALID_QUIZ_DATA
  | AI_API_ERROR
  | TMDB_API_ERROR
  | MOVIE_NOT_FOUND
  | INTERNAL_ERROR
deriving DecidableEq

/-- The substring classifier of the catch-block in POST. -/
def classifyError (message : String) : ErrorCode :=
  if strIncludes message "Invalid quiz data" then .INVALID_QUIZ_DATA
  else if strIncludes message "Gemini API" then .AI_API_ERROR
  else if strIncludes message "TMDB" || strIncludes message "Movie not found" then .TMDB_API_ERROR
  else if strIncludes message "not found" then .MOVIE_NOT_FOUND
  else .INTERNAL_ERROR

/-- The body a response carries: the success envelope (processing time and
timestamp are wall-clock values, outside the embedding) or the failure
envelope. -/
inductive APIResult where
  | success (recommendation : MovieRecommendation) (quizType : String) (aiModel : String)
  | failure (message : String) (code : ErrorCode)

/-- The validated payload's `type` field (a string whenever validation
succeeded). -/
def quizTypeOf (data : JsonValue) : String :=
  match data.getField "type" with
  | some (.str s) => s
  | _ => ""

/-- The external collaborators of one POST invocation. -/
structure PostEnv where
  decode : String → Option JsonValue
  ai : AIOutcome
  tmdbKey : Option String
  search : String → Option ℚ → FetchOutcome SearchBody
  details : ℤ → FetchOutcome TMDBMovieDetails
  credits : ℤ → FetchOutcome TMDBCredits

/-- The try-block of POST: validate, ask the AI, enrich.  (A JSON syntax
error from request.json() would reach the same catch-block; it is not
needed by any claim and is outside this embedding.) -/
def postTry (env : PostEnv) (body : JsonValue) :
    Except String (MovieRecommendation × String) :=
  (validateQuizData body).bind fun quizData =>
  (generateRecommendation env.decode env.ai).bind fun aiRecommendation =>
  (enrichMovieWithTMDB env.tmdbKey env.search env.details env.credits
      aiRecommendation).map
    fun movieRecommendation => (movieRecommendation, quizTypeOf quizData)

/-- POST: HTTP status (200 on success, 400 only for INVALID_QUIZ_DATA, 500
otherwise) together with the response body. -/
def POST (env : PostEnv) (body : JsonValue) : ℕ × APIResult :=
  match postTry env body with
  | .ok (r, quizType) => (200, .success r quizType "gemini-pro")
  | .error message =>
    (if classifyError message = .INVALID_QUIZ_DATA then 400 else 500,
     .failure message (classifyError message))

/-! ### Helper lemmas -/

theorem string_data_append (a b : String) : (a ++ b).data = a.data ++ b.data := rfl

theorem listIncludes_append_self (n rest : List Char) :
    listIncludes (n ++ rest) n = true := by
  unfold listIncludes
  rw [List.any_eq_true]
  refine ⟨0, ?_, ?_⟩
  · simp [List.mem_range]
  · simp

theorem notFound_includes (t : String) :
    strIncludes ("Movie not found: " ++ t) "Movie not found" = true := by
  unfold strIncludes
  rw [string_data_append]
  have h : "Movie not found: ".data = "Movie not found".data ++ ": ".data := rfl
  rw [h, List.append_assoc]
  exact listIncludes_append_self _ _

theorem movie_vs_search_msg (t : String) (u : String) :
    ("Movie not found: " ++ t) ≠ ("TMDB search error: " ++ u) := by
  intro h
  have h1 : ("Movie not found: " ++ t).data.head? = some 'M' := rfl
  have h2 : ("TMDB search error: " ++ u).data.head? = some 'T' := rfl
  rw [h] at h1
  rw [h2] at h1
  simp at h1

theorem find?_none_iff_all (p : String → Bool) (l : List String) :
    (l.find? fun f => !p f) = none ↔ l.all p = true := by
  rw [List.find?_eq_none, List.all_eq_true]
  constructor
  · intro h x hx
    have := h x hx
    simpa using this
  · intro h x hx
    simp [h x hx]

theorem find?_isSome_of_mem (p : String → Bool) (l : List String) (f : String)
    (hf : f ∈ l) (hp : p f = true) : ∃ g, l.find? p = some g := by
  cases hfind : l.find? p with
  | some g => exact ⟨g, rfl⟩
  | none =>
    rw [List.find?_eq_none] at hfind
    exact absurd hp (hfind f hf)

theorem trimAll_of_strings (vs : List JsonValue)
    (h : ∀ v ∈ vs, ∃ u, v = .str u) :
    ∃ out, trimAll vs = some out ∧ out.length = vs.length := by
  induction vs with
  | nil => exact ⟨[], rfl, rfl⟩
  | cons v vs ih =>
    obtain ⟨u, hu⟩ := h v (List.mem_cons_self v vs)
    obtain ⟨out, hout, hlen⟩ := ih fun w hw => h w (List.mem_cons_of_mem v hw)
    refine ⟨trimString u :: out, ?_, by simp [hlen]⟩
    simp [trimAll, hu, jsTrim, hout]

theorem jsRound_bound (p : ℚ) : |(jsRound p : ℚ) - p| ≤ 1/2 := by
  have hden0 : ((p.den : ℚ)) ≠ 0 := by exact_mod_cast p.den_ne_zero
  have hfl : jsRound p = ⌊(((2 * p.num + (p.den : ℤ) : ℤ)) : ℚ) / ((2 * p.den : ℕ) : ℚ)⌋ := by
    rw [Rat.floor_intCast_div_natCast]
    rfl
  have hp : (p.num : ℚ) = p * (p.den : ℚ) :=
    (div_eq_iff hden0).mp (Rat.num_div_den p)
  have hx : (((2 * p.num + (p.den : ℤ) : ℤ)) : ℚ) / ((2 * p.den : ℕ) : ℚ) = p + 1/2 := by
    push_cast
    field_simp
    linear_combination (4 : ℚ) * hp
  rw [hfl, hx, abs_sub_le_iff]
  constructor
  · linarith [Int.floor_le (p + 1/2)]
  · linarith [Int.lt_floor_add_one (p + 1/2)]

theorem mkRat_mul_ten (q : ℚ) : mkRat (q.num * 10) q.den = q * 10 := by
  rw [Rat.mkRat_eq_div]
  push_cast
  rw [mul_div_right_comm, Rat.num_div_den]

theorem roundTo1_spec (q : ℚ) :
    ∃ z : ℤ, roundTo1 q = mkRat z 10 ∧ |roundTo1 q - q| ≤ mkRat 1 20 := by
  refine ⟨jsRound (mkRat (q.num * 10) q.den), rfl, ?_⟩
  set z : ℤ := jsRound (mkRat (q.num * 10) q.den) with hz
  have hb : |(z : ℚ) - mkRat (q.num * 10) q.den| ≤ 1/2 := jsRound_bound _
  rw [mkRat_mul_ten] at hb
  have hr : roundTo1 q = mkRat z 10 := rfl
  rw [hr, Rat.mkRat_eq_div, Rat.mkRat_eq_div]
  push_cast
  have hdiff : (z : ℚ)/10 - q = ((z : ℚ) - q * 10)/10 := by ring
  rw [hdiff, abs_div]
  have h10 : |(10 : ℚ)| = 10 := by norm_num
  rw [h10, div_le_div_iff₀ (by norm_num) (by norm_num)]
  calc |(z : ℚ) - q * 10| * 20 ≤ (1/2) * 20 := by
        have := abs_nonneg ((z : ℚ) - q * 10)
        nlinarith [hb]
    _ = 1 * 10 := by norm_num

/-! ### Concrete inputs -/

/-- A well-formed mood payload with every required field truthy. -/
def goodMood : JsonValue := .obj
  [("type", .str "mood"),
   ("responses", .obj
     [("currentMood", .str "sad"), ("desiredFeeling", .str "happy"),
      ("genre", .str "comedy"), ("intensity", .str "light"),
      ("setting", .str "modern"), ("companionType", .str "alone"),
      ("duration", .str "short")])]

/-- A mood payload with the intensity field entirely absent. -/
def moodNoIntensity : JsonValue := .obj
  [("type", .str "mood"),
   ("responses", .obj
     [("currentMood", .str "sad"), ("desiredFeeling", .str "happy"),
      ("genre", .str "comedy"),
      ("setting", .str "modern"), ("companionType", .str "alone"),
      ("duration", .str "short")])]

/-- A mood payload with the intensity field present but bound to the empty
string (falsy but present). -/
def moodEmptyIntensity : JsonValue := .obj
  [("type", .str "mood"),
   ("responses", .obj
     [("currentMood", .str "sad"), ("desiredFeeling", .str "happy"),
      ("genre", .str "comedy"), ("intensity", .str ""),
      ("setting", .str "modern"), ("companionType", .str "alone"),
      ("duration", .str "short")])]

/-- Every mood-required field is present (bound to some value) in the
payload's responses object. -/
def moodFieldsPresent (data : JsonValue) : Bool :=
  moodRequired.all fun f => (respField data f).isSome

/-- The first required field the validator's loop reports as missing. -/
def firstMissing (fields : List String) (data : JsonValue) : String :=
  (fields.find? fun f => !truthyOpt (respField data f)).getD ""

/-- An environment whose external calls all fail (never reached by the C1
run: validation throws first). -/
def env0 : PostEnv :=
  ⟨fun _ => none, .reply "", none, fun _ _ => .httpError 0,
   fun _ => .httpError 0, fun _ => .httpError 0⟩

/-! ### C1 -/

/-- C1: a mood payload missing the required `intensity` field makes the
validator throw "Invalid mood quiz data: missing intensity", a message that
contains none of the classifier substrings (in particular not
"Invalid quiz data"), so POST answers HTTP 500 with code INTERNAL_ERROR —
not 400 with INVALID_QUIZ_DATA as the spec requires. -/
theorem POST_missing_field_misclassified :
    POST env0 moodNoIntensity =
      (500, .failure "Invalid mood quiz data: missing intensity" .INTERNAL_ERROR) := rfl

/-! ### C2 -/

/-- C2 (amended): validateQuizData accepts exactly the payloads of
quizShapeOk — a truthy object with a recognised tag whose tag-required
fields are all present with truthy values (presence alone is not enough)
and whose four likes list fields are arrays — and on success returns its
input unchanged. -/
theorem validateQuizData_ok_iff (data : JsonValue) :
    (validateQuizData data = .ok data ↔ quizShapeOk data = true) ∧
    (∀ d, validateQuizData data = .ok d → d = data) := by
  constructor
  · constructor
    · intro h
      unfold validateQuizData at h
      split_ifs at h with h1 h2 h3 h4
      · -- mood branch
        simp at h1 h2 h3
        cases hfind : moodRequired.find? fun f => !truthyOpt (respField data f) with
        | some f => simp only [hfind] at h; exact Except.noConfusion h
        | none =>
          have hall := List.all_eq_true.mp ((find?_none_iff_all _ _).mp hfind)
          simp only [quizShapeOk, Bool.and_eq_true, Bool.or_eq_true, List.all_eq_true,
            beq_iff_eq]
          exact ⟨⟨⟨⟨h1.1, h1.2⟩, h2.1⟩, h2.2⟩, Or.inl ⟨h4, hall⟩⟩
      · -- likes branch
        simp at h1 h2 h3 h4
        have hlikes := h3 h4
        cases hfind : likesRequired.find? fun f => !truthyOpt (respField data f) with
        | some f => simp only [hfind] at h; exact Except.noConfusion h
        | none =>
          cases hfind2 : likesArrayFields.find? fun f => !isArrayOpt (respField data f) with
          | some f => simp only [hfind, hfind2] at h; exact Except.noConfusion h
          | none =>
            have hall := List.all_eq_true.mp ((find?_none_iff_all _ _).mp hfind)
            have hall2 := List.all_eq_true.mp ((find?_none_iff_all _ _).mp hfind2)
            simp only [quizShapeOk, Bool.and_eq_true, Bool.or_eq_true, List.all_eq_true,
              beq_iff_eq]
            exact ⟨⟨⟨⟨h1.1, h1.2⟩, h2.1⟩, h2.2⟩, Or.inr ⟨⟨hlikes, hall⟩, hall2⟩⟩
    · intro hs
      simp only [quizShapeOk, Bool.and_eq_true, Bool.or_eq_true] at hs
      obtain ⟨⟨⟨⟨ht, hobj⟩, hty⟩, hrs⟩, htagor⟩ := hs
      have hobj' : data.jsTypeof = "object" := by simpa using hobj
      rcases htagor with ⟨htag, hall⟩ | ⟨⟨htag, hall⟩, hall2⟩
      · have hfind := (find?_none_iff_all (fun f => truthyOpt (respField data f)) moodRequired).mpr hall
        unfold validateQuizData
        simp [ht, hobj', hty, hrs, htag, hfind]
      · have hfind := (find?_none_iff_all (fun f => truthyOpt (respField data f)) likesRequired).mpr hall
        have hfind2 := (find?_none_iff_all (fun f => isArrayOpt (respField data f)) likesArrayFields).mpr hall2
        have hnotmood : isTag (data.getField "type") "mood" = false := by
          unfold isTag at htag ⊢
          cases hv : data.getField "type" with
          | none => rfl
          | some v =>
            cases v with
            | str s =>
              rw [hv] at htag
              simp at htag
              simp [htag]
            | _ => rfl
        unfold validateQuizData
        simp [ht, hobj', hty, hrs, htag, hnotmood, hfind, hfind2]
  · intro d h
    unfold validateQuizData at h
    split_ifs at h
    all_goals try split at h
    all_goals try split at h
    all_goals simp_all

/-- C2 counterexample: in the payload moodEmptyIntensity every mood-required
field is present (so the claim's presence-based contract demands success) and
the tag is "mood", yet the validator rejects it, because the present
intensity field is the empty string, which is falsy. -/
theorem validateQuizData_presence_not_enough :
    moodFieldsPresent moodEmptyIntensity = true ∧
    moodEmptyIntensity.getField "type" = some (.str "mood") ∧
    moodEmptyIntensity.jsTypeof = "object" ∧
    validateQuizData moodEmptyIntensity =
      .error "Invalid mood quiz data: missing intensity" :=
  ⟨rfl, rfl, rfl, rfl⟩

/-- C2 witness: the characterization applied to a concrete well-formed mood
payload, whose shape predicate evaluates to true, yields acceptance. -/
theorem validateQuizData_ok_iff_witness :
    validateQuizData goodMood = .ok goodMood :=
  (validateQuizData_ok_iff goodMood).1.mpr rfl

/-! ### C8 -/

/-- C8: for both quiz variants, a payload whose tag-required field is
present but bound to a falsy value is rejected by the validator with the
"missing field" error of the first field its loop finds falsy — presence
alone does not suffice. -/
theorem validateQuizData_falsy_field_missing (data : JsonValue) (f : String)
    (v : JsonValue) (hf : respField data f = some v) (hv : v.truthy = false) :
    (isTag (data.getField "type") "mood" = true → f ∈ moodRequired →
       validateQuizData data =
         .error ("Invalid mood quiz data: missing " ++ firstMissing moodRequired data)) ∧
    (isTag (data.getField "type") "likes" = true → f ∈ likesRequired →
       validateQuizData data =
         .error ("Invalid likes quiz data: missing " ++ firstMissing likesRequired data)) := by
  have hresp : truthyOpt (data.getField "responses") = true := by
    unfold respField at hf
    cases hr : data.getField "responses" with
    | none => rw [hr] at hf; simp at hf
    | some r =>
      rw [hr] at hf
      replace hf : r.getField f = some v := hf
      cases r with
      | obj rfs => rfl
      | null => simp [JsonValue.getField] at hf
      | bool b => simp [JsonValue.getField] at hf
      | num q => simp [JsonValue.getField] at hf
      | str s => simp [JsonValue.getField] at hf
      | arr xs => simp [JsonValue.getField] at hf
  have hpredm : (!truthyOpt (respField data f)) = true := by
    rw [hf]
    simp [truthyOpt, hv]
  constructor
  · intro htag hmem
    have hty : data.getField "type" = some (.str "mood") := by
      unfold isTag at htag
      cases hty0 : data.getField "type" with
      | none => rw [hty0] at htag; exact absurd htag (by simp)
      | some v0 =>
        cases v0 with
        | str s =>
          rw [hty0] at htag
          simp at htag
          subst htag
          rfl
        | null => rw [hty0] at htag; exact absurd htag (by simp)
        | bool b => rw [hty0] at htag; exact absurd htag (by simp)
        | num q => rw [hty0] at htag; exact absurd htag (by simp)
        | arr xs => rw [hty0] at htag; exact absurd htag (by simp)
        | obj fs => rw [hty0] at htag; exact absurd htag (by simp)
    have hobj : data.jsTypeof = "object" ∧ data.truthy = true := by
      cases data with
      | obj fs => exact ⟨rfl, rfl⟩
      | null => simp [JsonValue.getField] at hty
      | bool b => simp [JsonValue.getField] at hty
      | num q => simp [JsonValue.getField] at hty
      | str s => simp [JsonValue.getField] at hty
      | arr xs => simp [JsonValue.getField] at hty
    obtain ⟨g, hg⟩ := find?_isSome_of_mem (fun g => !truthyOpt (respField data g)) moodRequired f hmem hpredm
    have hfm : firstMissing moodRequired data = g := by
      unfold firstMissing
      rw [hg]
      rfl
    have c1 : (!data.truthy || data.jsTypeof != "object") = false := by
      rw [hobj.1, hobj.2]; rfl
    have c2 : (!truthyOpt (data.getField "type") || !truthyOpt (data.getField "responses")) = false := by
      rw [hty, hresp]; rfl
    have c3 : isTag (data.getField "type") "mood" = true := by rw [hty]; rfl
    unfold validateQuizData
    rw [hfm]
    simp [c1, c2, c3, hg]
  · intro htag hmem
    have hty : data.getField "type" = some (.str "likes") := by
      unfold isTag at htag
      cases hty0 : data.getField "type" with
      | none => rw [hty0] at htag; exact absurd htag (by simp)
      | some v0 =>
        cases v0 with
        | str s =>
          rw [hty0] at htag
          simp at htag
          subst htag
          rfl
        | null => rw [hty0] at htag; exact absurd htag (by simp)
        | bool b => rw [hty0] at htag; exact absurd htag (by simp)
        | num q => rw [hty0] at htag; exact absurd htag (by simp)
        | arr xs => rw [hty0] at htag; exact absurd htag (by simp)
        | obj fs => rw [hty0] at htag; exact absurd htag (by simp)
    have hobj : data.jsTypeof = "object" ∧ data.truthy = true := by
      cases data with
      | obj fs => exact ⟨rfl, rfl⟩
      | null => simp [JsonValue.getField] at hty
      | bool b => simp [JsonValue.getField] at hty
      | num q => simp [JsonValue.getField] at hty
      | str s => simp [JsonValue.getField] at hty
      | arr xs => simp [JsonValue.getField] at hty
    obtain ⟨g, hg⟩ := find?_isSome_of_mem (fun g => !truthyOpt (respField data g)) likesRequired f hmem hpredm
    have hfm : firstMissing likesRequired data = g := by
      unfold firstMissing
      rw [hg]
      rfl
    have c1 : (!data.truthy || data.jsTypeof != "object") = false := by
      rw [hobj.1, hobj.2]; rfl
    have c2 : (!truthyOpt (data.getField "type") || !truthyOpt (data.getField "responses")) = false := by
      rw [hty, hresp]; rfl
    have c3 : isTag (data.getField "type") "likes" = true := by rw [hty]; rfl
    have c4 : isTag (data.getField "type") "mood" = false := by rw [hty]; rfl
    unfold validateQuizData
    rw [hfm]
    simp [c1, c2, c3, c4, hg]

/-- C8 witness: the mood payload whose intensity is the (present, falsy)
empty string is rejected with the missing-intensity error. -/
theorem validateQuizData_falsy_field_missing_witness :
    validateQuizData moodEmptyIntensity =
      .error ("Invalid mood quiz data: missing " ++
        firstMissing moodRequired moodEmptyIntensity) :=
  (validateQuizData_falsy_field_missing moodEmptyIntensity "intensity" (.str "")
    rfl rfl).1 rfl (by simp [moodRequired])

/-! ### C4 -/

/-- C4: whenever no brace-delimited span exists in the reply, or the span
fails to JSON-parse, or the parsed object lacks movieTitle, explanation or
an array-valued matchReasons, parseAIResponse does not throw and returns
exactly the fixed fallback recommendation. -/
theorem parseAIResponse_fallback (decode : String → Option JsonValue) (text : String)
    (h : extractJsonSpan text = none
       ∨ (∃ s, extractJsonSpan text = some s ∧ decode s = none)
       ∨ (∃ s p, extractJsonSpan text = some s ∧ decode s = some p ∧
           (p.getField "movieTitle" = none ∨ p.getField "explanation" = none ∨
            isArrayOpt (p.getField "matchReasons") = false))) :
    parseAIResponse decode text = fallbackRecommendation := by
  unfold parseAIResponse parseTry
  rcases h with h | ⟨s, hs, hd⟩ | ⟨s, p, hs, hd, hreq⟩
  · rw [h]
    rfl
  · rw [hs, Option.some_bind, hd]
    rfl
  · rw [hs, Option.some_bind, hd, Option.some_bind]
    have hcond : (!truthyOpt (p.getField "movieTitle") ||
        !truthyOpt (p.getField "explanation") ||
        !truthyOpt (p.getField "matchReasons") ||
        !isArrayOpt (p.getField "matchReasons")) = true := by
      rcases hreq with h1 | h2 | h3
      · simp [h1, truthyOpt]
      · simp [h2, truthyOpt]
      · simp [h3]
    rw [hcond]
    rfl

/-- C4 witness: a reply with no brace-delimited span yields the fallback. -/
theorem parseAIResponse_fallback_witness :
    parseAIResponse (fun _ => none) "no json here" = fallbackRecommendation :=
  parseAIResponse_fallback (fun _ => none) "no json here" (Or.inl rfl)

/-! ### C3 -/

/-- The counterexample object for C3: all required fields are present and
well-typed, and confidenceScore is the number 0. -/
def cxConfObj : JsonValue := .obj
  [("movieTitle", .str "Arrival"), ("explanation", .str "Great."),
   ("matchReasons", .arr [.str "r1"]), ("confidenceScore", .num (mkRat 0 1))]

/-- JSON.parse outcome for the C3 counterexample. -/
def cxConfDecode : String → Option JsonValue := fun _ => some cxConfObj

/-- A reply text whose brace span is the whole string. -/
def cxConfText : String := "\x7bz\x7d"

/-- C3 counterexample: a reply whose JSON parses with all required fields
and confidenceScore 0 yields confidence 0.8, not the clamped value 0 —
because 0 is falsy and `parsed.confidenceScore || 0.8` replaces it. -/
theorem parseAIResponse_conf_zero_cx :
    cxConfObj.getField "confidenceScore" = some (.num (mkRat 0 1)) ∧
    (parseAIResponse cxConfDecode cxConfText).confidenceScore = mkRat 4 5 ∧
    jsMin (jsMax (mkRat 0 1) 0) 1 = 0 ∧
    (mkRat 4 5 : ℚ) ≠ 0 :=
  ⟨rfl, rfl, by decide, by decide⟩

/-- On the happy path — span found, JSON decoded to an object whose
required fields are truthy and well-typed — parseAIResponse returns the
trimmed fields (no fallback). -/
theorem parseAIResponse_reduces (decode : String → Option JsonValue)
    (text s : String) (fs : List (String × JsonValue)) (t e : String)
    (rs : List JsonValue) (out : List String) (yv : Option ℚ) (cv : ℚ)
    (av : Option String)
    (hspan : extractJsonSpan text = some s)
    (hdec : decode s = some (.obj fs))
    (hmt : lookupField fs "movieTitle" = some (.str t)) (ht : t ≠ "")
    (hex : lookupField fs "explanation" = some (.str e)) (he : e ≠ "")
    (hmr : lookupField fs "matchReasons" = some (.arr rs))
    (hout : trimAll rs = some out)
    (hyv : yearValue (lookupField fs "year") = some yv)
    (hcv : confValue (lookupField fs "confidenceScore") = some cv)
    (hav : altValue (lookupField fs "alternativeTitle") = some av) :
    parseAIResponse decode text = ⟨trimString t, yv, trimString e, out, cv, av⟩ := by
  have hgf : ∀ kk, JsonValue.getField (.obj fs) kk = lookupField fs kk := fun _ => rfl
  have hcond : (!truthyOpt (lookupField fs "movieTitle") ||
      !truthyOpt (lookupField fs "explanation") ||
      !truthyOpt (lookupField fs "matchReasons") ||
      !isArrayOpt (lookupField fs "matchReasons")) = false := by
    simp [hmt, hex, hmr, truthyOpt, JsonValue.truthy, isArrayOpt, ht, he]
  unfold parseAIResponse parseTry
  rw [hspan, Option.some_bind, hdec, Option.some_bind]
  simp only [hgf]
  rw [hcond]
  simp only [Bool.false_eq_true, if_false, hmt, hex, hmr, Option.some_bind, jsTrim,
    hyv, hout, hcv, hav]
  rfl

/-- C3 (amended): for a reply whose extracted JSON parses into an object
passing the required-field check with string-typed title/explanation and
string-array matchReasons (and well-typed optional fields), the parsed
confidence equals the clamp of the reply's confidenceScore into [0,1] when
that score is a nonzero number, and 0.8 when the field is absent or 0. -/
theorem parseAIResponse_confidence (decode : String → Option JsonValue)
    (text s : String) (fs : List (String × JsonValue)) (t e : String)
    (rs : List JsonValue)
    (hspan : extractJsonSpan text = some s)
    (hdec : decode s = some (.obj fs))
    (hmt : lookupField fs "movieTitle" = some (.str t)) (ht : t ≠ "")
    (hex : lookupField fs "explanation" = some (.str e)) (he : e ≠ "")
    (hmr : lookupField fs "matchReasons" = some (.arr rs))
    (hrs : ∀ r ∈ rs, ∃ u, r = .str u)
    (hyear : (yearValue (lookupField fs "year")).isSome = true)
    (halt : (altValue (lookupField fs "alternativeTitle")).isSome = true) :
    (lookupField fs "confidenceScore" = none →
       (parseAIResponse decode text).confidenceScore = mkRat 4 5) ∧
    (∀ q : ℚ, lookupField fs "confidenceScore" = some (.num q) →
       (parseAIResponse decode text).confidenceScore =
         if q = 0 then mkRat 4 5 else jsMin (jsMax q 0) 1) := by
  obtain ⟨out, hout, _⟩ := trimAll_of_strings rs hrs
  obtain ⟨yv, hyv⟩ := Option.isSome_iff_exists.mp hyear
  obtain ⟨av, hav⟩ := Option.isSome_iff_exists.mp halt
  have hred : ∀ cv : ℚ, confValue (lookupField fs "confidenceScore") = some cv →
      parseAIResponse decode text = ⟨trimString t, yv, trimString e, out, cv, av⟩ :=
    fun cv hcv => parseAIResponse_reduces decode text s fs t e rs out yv cv av
      hspan hdec hmt ht hex he hmr hout hyv hcv hav
  constructor
  · intro hnone
    have : confValue (lookupField fs "confidenceScore") = some (mkRat 4 5) := by
      rw [hnone]
      rfl
    rw [hred _ this]
  · intro q hq
    by_cases hq0 : q = 0
    · have : confValue (lookupField fs "confidenceScore") = some (mkRat 4 5) := by
        rw [hq, hq0]
        simp [confValue, JsonValue.truthy]
      rw [hred _ this]
      simp [hq0]
    · have : confValue (lookupField fs "confidenceScore") = some (jsMin (jsMax q 0) 1) := by
        rw [hq]
        have : (JsonValue.num q).truthy = true := by
          simp [JsonValue.truthy, Rat.num_ne_zero, hq0]
        simp [confValue, this]
      rw [hred _ this]
      simp [hq0]

/-- C3 witness: the amended confidence rule applied to a concrete reply
carrying confidenceScore 3/2 (the spec's 1.5 example), clamped to 1. -/
theorem parseAIResponse_confidence_witness :
    (parseAIResponse
        (fun _ => some (.obj
          [("movieTitle", .str "Arrival"), ("explanation", .str "Great."),
           ("matchReasons", .arr [.str "r1"]),
           ("confidenceScore", .num (mkRat 3 2))]))
        "\x7bz\x7d").confidenceScore =
      if (mkRat 3 2 : ℚ) = 0 then mkRat 4 5 else jsMin (jsMax (mkRat 3 2) 0) 1 :=
  (parseAIResponse_confidence _ "\x7bz\x7d" "\x7bz\x7d"
    [("movieTitle", .str "Arrival"), ("explanation", .str "Great."),
     ("matchReasons", .arr [.str "r1"]), ("confidenceScore", .num (mkRat 3 2))]
    "Arrival" "Great." [.str "r1"] rfl rfl rfl (by decide) rfl (by decide) rfl
    (by intro r hr
        simp at hr
        exact ⟨"r1", hr⟩)
    rfl rfl).2 (mkRat 3 2) rfl

/-! ### C5 -/

/-- C5: enrichment turns a zero-result search into "Movie not found: title"
and an HTTP-level search failure into "TMDB search error: status", and no
instance of the former message ever equals an instance of the latter — the
two error conditions are distinguishable. -/
theorem enrich_not_found_distinguishable (key : String)
    (search : String → Option ℚ → FetchOutcome SearchBody)
    (details : ℤ → FetchOutcome TMDBMovieDetails)
    (credits : ℤ → FetchOutcome TMDBCredits)
    (ai : AIRecommendation) :
    ((∀ ti y, search ti y = .ok ⟨some []⟩) →
       enrichMovieWithTMDB (some key) search details credits ai =
         .error ("Movie not found: " ++ ai.movieTitle)) ∧
    (∀ status : ℕ, (∀ ti y, search ti y = .httpError status) →
       enrichMovieWithTMDB (some key) search details credits ai =
         .error ("TMDB search error: " ++ toString status)) ∧
    (∀ t : String, ∀ status : ℕ,
       ("Movie not found: " ++ t) ≠ ("TMDB search error: " ++ toString status)) := by
  refine ⟨?_, ?_, fun t status => movie_vs_search_msg t (toString status)⟩
  · intro hs
    unfold enrichMovieWithTMDB searchMovie
    rw [hs]
    rfl
  · intro status hs
    unfold enrichMovieWithTMDB searchMovie
    rw [hs]

/-- C5 witness: concrete zero-result enrichment produces the not-found error. -/
theorem enrich_not_found_distinguishable_witness :
    enrichMovieWithTMDB (some "k") (fun _ _ => .ok ⟨some []⟩)
        (fun _ => .httpError 0) (fun _ => .httpError 0)
        ⟨"Heat", none, "e", [], mkRat 1 1, none⟩ =
      .error ("Movie not found: " ++ "Heat") :=
  (enrich_not_found_distinguishable "k" (fun _ _ => .ok ⟨some []⟩)
    (fun _ => .httpError 0) (fun _ => .httpError 0)
    ⟨"Heat", none, "e", [], mkRat 1 1, none⟩).1 (fun _ _ => rfl)

/-! ### C9 -/

/-- C9: every error generateRecommendation throws is one of its three fixed
messages, and each of those is classified INTERNAL_ERROR by the POST
catch-block (none contains any classifier substring), so an AI-client
failure is never reported as AI_API_ERROR. -/
theorem generateRecommendation_errors_internal (decode : String → Option JsonValue)
    (outcome : AIOutcome) (e : String)
    (h : generateRecommendation decode outcome = .error e) :
    (e = authFailedMsg ∨ e = rateLimitMsg ∨ e = genericAIMsg) ∧
    classifyError e = .INTERNAL_ERROR := by
  cases outcome with
  | reply text => exact absurd h (by simp [generateRecommendation])
  | failure msg =>
    have h' : (if includesOpt msg "403 Forbidden" then Except.error authFailedMsg
        else if includesOpt msg "429" then Except.error rateLimitMsg
        else (Except.error genericAIMsg : Except String AIRecommendation)) = Except.error e := h
    clear h
    split_ifs at h' with h1 h2
    · injection h' with he
      subst he
      exact ⟨Or.inl rfl, by rfl⟩
    · injection h' with he
      subst he
      exact ⟨Or.inr (Or.inl rfl), by rfl⟩
    · injection h' with he
      subst he
      exact ⟨Or.inr (Or.inr rfl), by rfl⟩

/-- C9 witness: a messageless transport failure produces the generic
message, classified INTERNAL_ERROR. -/
theorem generateRecommendation_errors_internal_witness :
    (genericAIMsg = authFailedMsg ∨ genericAIMsg = rateLimitMsg ∨
      genericAIMsg = genericAIMsg) ∧
    classifyError genericAIMsg = .INTERNAL_ERROR :=
  generateRecommendation_errors_internal (fun _ => none) (.failure none)
    genericAIMsg rfl

/-! ### C7 -/

/-- C7 (amended): in the assembled recommendation, posterUrl and backdropUrl
are null exactly when the corresponding path is null OR EMPTY and are
otherwise the fixed base URL plus the path; the rating is the vote average
rounded to one decimal (a multiple of 1/10 within 1/20 of it); at most five
cast entries, each from the credits record with profileUrl null when its
profile_path is null; tmdbUrl is always the provider URL for the record's
id; and imdbUrl is present only when the record carries a nonempty imdb_id. -/
theorem buildMovieRecommendation_fields (ai : AIRecommendation)
    (d : TMDBMovieDetails) (cr : TMDBCredits) (r : MovieRecommendation)
    (hr : r = buildMovieRecommendation ai d cr) :
    (r.posterUrl = none ↔ d.poster_path = none ∨ d.poster_path = some "") ∧
    (∀ p, d.poster_path = some p → p ≠ "" →
       r.posterUrl = some (TMDB_IMAGE_BASE_URL ++ p)) ∧
    (r.backdropUrl = none ↔ d.backdrop_path = none ∨ d.backdrop_path = some "") ∧
    (∀ p, d.backdrop_path = some p → p ≠ "" →
       r.backdropUrl = some (TMDB_IMAGE_BASE_URL_LARGE ++ p)) ∧
    (∃ z : ℤ, r.rating = mkRat z 10 ∧ |r.rating - d.vote_average| ≤ mkRat 1 20) ∧
    r.cast.length ≤ 5 ∧
    (∀ e ∈ r.cast, ∃ m ∈ cr.cast, e.name = m.name ∧ e.character = m.character ∧
       (m.profile_path = none → e.profileUrl = none)) ∧
    r.tmdbUrl = "https://www.themoviedb.org/movie/" ++ toString d.id ∧
    (∀ u, r.imdbUrl = some u → ∃ i, d.imdb_id = some i ∧ i ≠ "") := by
  subst hr
  refine ⟨?_, ?_, ?_, ?_, roundTo1_spec d.vote_average, ?_, ?_, rfl, ?_⟩
  · show imageUrl TMDB_IMAGE_BASE_URL d.poster_path = none ↔ _
    unfold imageUrl
    cases d.poster_path with
    | none => simp
    | some p =>
      by_cases hpe : p = "" <;> simp [hpe]
  · intro p hp hpe
    show imageUrl TMDB_IMAGE_BASE_URL d.poster_path = _
    rw [hp]
    simp [imageUrl, hpe]
  · show imageUrl TMDB_IMAGE_BASE_URL_LARGE d.backdrop_path = none ↔ _
    unfold imageUrl
    cases d.backdrop_path with
    | none => simp
    | some p =>
      by_cases hpe : p = "" <;> simp [hpe]
  · intro p hp hpe
    show imageUrl TMDB_IMAGE_BASE_URL_LARGE d.backdrop_path = _
    rw [hp]
    simp [imageUrl, hpe]
  · show ((cr.cast.take 5).map _).length ≤ 5
    rw [List.length_map, List.length_take]
    exact min_le_left _ _
  · intro e he
    simp only [buildMovieRecommendation] at he
    rw [List.mem_map] at he
    obtain ⟨m, hm, rfl⟩ := he
    refine ⟨m, List.mem_of_mem_take hm, rfl, rfl, ?_⟩
    intro hpp
    simp [imageUrl, hpp]
  · intro u hu
    revert hu
    show (match d.imdb_id with
      | some i => if i ≠ "" then some ("https://www.imdb.com/title/" ++ i) else none
      | none => none) = some u → _
    cases hi : d.imdb_id with
    | none => simp
    | some i =>
      by_cases hie : i = "" <;> simp [hie]

/-- Counterexample record for C7: a details record whose poster_path is the
empty string (present, not null). -/
def cxDetailsEmptyPoster : TMDBMovieDetails :=
  ⟨7, "T", "o", some "", none, "2000-01-01", [], mkRat 0 1, 0, mkRat 100 1, none⟩

/-- C7 counterexample: with poster_path = "" (a string, not null) the
assembled posterUrl is nonetheless null, refuting "null exactly when the
path field is null"; the truthiness guard also nulls empty paths. -/
theorem buildMovieRecommendation_poster_cx :
    (buildMovieRecommendation ⟨"X", none, "e", [], mkRat 1 1, none⟩
        cxDetailsEmptyPoster ⟨7, []⟩).posterUrl = none ∧
    cxDetailsEmptyPoster.poster_path = some "" ∧
    (some "" : Option String) ≠ none :=
  ⟨rfl, rfl, by simp⟩

/-- Witness record for C7 with a nonempty poster path. -/
def wDetailsPoster : TMDBMovieDetails :=
  ⟨7, "T", "o", some "/p.jpg", none, "2000-01-01", [], mkRat 0 1, 0,
   mkRat 100 1, none⟩

/-- C7 witness: the amended field description applied at a record whose
poster path is a nonempty string gives the absolute w500 URL. -/
theorem buildMovieRecommendation_fields_witness :
    (buildMovieRecommendation ⟨"X", none, "e", [], mkRat 1 1, none⟩
        wDetailsPoster ⟨7, []⟩).posterUrl =
      some (TMDB_IMAGE_BASE_URL ++ "/p.jpg") :=
  (buildMovieRecommendation_fields ⟨"X", none, "e", [], mkRat 1 1, none⟩
    wDetailsPoster ⟨7, []⟩ _ rfl).2.1 "/p.jpg" rfl (by simp)

/-! ### C10 -/

/-- The AI reply object whose movieTitle happens to contain the classifier
needle "Gemini API". -/
def cx10Obj : JsonValue := .obj
  [("movieTitle", .str "Gemini API"), ("explanation", .str "E."),
   ("matchReasons", .arr [.str "r1"])]

/-- Environment for the C10 counterexample: the AI reply parses to the
adversarial title and the metadata search succeeds with zero results. -/
def env10 : PostEnv :=
  ⟨fun _ => some cx10Obj, .reply "\x7bz\x7d", some "k",
   fun _ _ => .ok ⟨some []⟩, fun _ => .httpError 0, fun _ => .httpError 0⟩

/-- C10 counterexample: a zero-result search for the AI title "Gemini API"
is reported with code AI_API_ERROR, not TMDB_API_ERROR — the enrichment
message "Movie not found: Gemini API" hits the earlier 'Gemini API'
classifier branch. -/
theorem POST_zero_result_misrouted_cx :
    env10.search "Gemini API" none = .ok ⟨some []⟩ ∧
    POST env10 goodMood =
      (500, .failure "Movie not found: Gemini API" .AI_API_ERROR) ∧
    ErrorCode.AI_API_ERROR ≠ ErrorCode.TMDB_API_ERROR :=
  ⟨rfl, rfl, by decide⟩

/-- C10 (amended): when the pipeline fails with the zero-result enrichment
error "Movie not found: title" and that message contains neither
'Invalid quiz data' nor 'Gemini API' (needles an adversarial title could
smuggle in), POST reports it with status 500 and code TMDB_API_ERROR (the
'Movie not found' branch fires before the 'not found' branch); and for
every title, the classifier can never return MOVIE_NOT_FOUND on such a
message. -/
theorem POST_zero_result_classified (env : PostEnv) (body : JsonValue)
    (title : String)
    (h : postTry env body = .error ("Movie not found: " ++ title))
    (h1 : strIncludes ("Movie not found: " ++ title) "Invalid quiz data" = false)
    (h2 : strIncludes ("Movie not found: " ++ title) "Gemini API" = false) :
    POST env body =
      (500, .failure ("Movie not found: " ++ title) .TMDB_API_ERROR) ∧
    (∀ t : String, classifyError ("Movie not found: " ++ t) ≠ .MOVIE_NOT_FOUND) := by
  have hclass : classifyError ("Movie not found: " ++ title) = .TMDB_API_ERROR := by
    unfold classifyError
    rw [h1, h2, notFound_includes title]
    simp
  constructor
  · unfold POST
    rw [h]
    show (if classifyError ("Movie not found: " ++ title) = ErrorCode.INVALID_QUIZ_DATA
        then 400 else 500,
      APIResult.failure ("Movie not found: " ++ title)
        (classifyError ("Movie not found: " ++ title))) = _
    rw [hclass]
    simp
  · intro t
    unfold classifyError
    rw [notFound_includes t]
    by_cases ha : strIncludes ("Movie not found: " ++ t) "Invalid quiz data" = true
    · simp [ha]
    · by_cases hb : strIncludes ("Movie not found: " ++ t) "Gemini API" = true
      · simp [ha, hb]
      · simp [ha, hb]

/-- The AI reply object for the C10 witness (an ordinary title). -/
def cx11Obj : JsonValue := .obj
  [("movieTitle", .str "Heat"), ("explanation", .str "E."),
   ("matchReasons", .arr [.str "r1"])]

/-- Environment for the C10 witness: ordinary title, zero-result search. -/
def env11 : PostEnv :=
  ⟨fun _ => some cx11Obj, .reply "\x7bz\x7d", some "k",
   fun _ _ => .ok ⟨some []⟩, fun _ => .httpError 0, fun _ => .httpError 0⟩

/-- C10 witness: for the ordinary title "Heat" the zero-result search is
reported as 500/TMDB_API_ERROR. -/
theorem POST_zero_result_classified_witness :
    POST env11 goodMood =
      (500, .failure ("Movie not found: " ++ "Heat") .TMDB_API_ERROR) :=
  (POST_zero_result_classified env11 goodMood "Heat" rfl rfl rfl).1

/-! ### C6 -/

theorem trimAll_length (vs : List JsonValue) (out : List String)
    (h : trimAll vs = some out) : out.length = vs.length := by
  induction vs generalizing out with
  | nil =>
    simp [trimAll] at h
    simp [← h]
  | cons v vs ih =>
    unfold trimAll at h
    cases hj : jsTrim v with
    | none => rw [hj] at h; simp at h
    | some s0 =>
      rw [hj] at h
      cases htr : trimAll vs with
      | none => rw [htr] at h; simp at h
      | some ss =>
        rw [htr] at h
        simp at h
        rw [← h]
        simp [ih ss htr]

/-- C6: for a valid mood payload, an AI reply whose JSON parses on the
happy path, and a metadata provider returning at least one search result
(first result m) whose details record carries m's id, POST returns the
success envelope whose recommendation has tmdbId = m.id (the first result
is taken as the canonical match, unre-ranked) and whose matchReasons list
has the same length as the reply's matchReasons array. -/
theorem POST_mood_success (env : PostEnv) (body : JsonValue)
    (text s : String) (fs : List (String × JsonValue)) (t e : String)
    (rs : List JsonValue) (out : List String) (yv : Option ℚ) (cv : ℚ)
    (av : Option String) (k : String) (m : TMDBMovie) (rest : List TMDBMovie)
    (d : TMDBMovieDetails) (cr : TMDBCredits)
    (hvalid : validateQuizData body = .ok body)
    (hmood : isTag (body.getField "type") "mood" = true)
    (henvai : env.ai = .reply text)
    (hspan : extractJsonSpan text = some s)
    (hdec : env.decode s = some (.obj fs))
    (hmt : lookupField fs "movieTitle" = some (.str t)) (ht : t ≠ "")
    (hex : lookupField fs "explanation" = some (.str e)) (he : e ≠ "")
    (hmr : lookupField fs "matchReasons" = some (.arr rs))
    (hout : trimAll rs = some out)
    (hyv : yearValue (lookupField fs "year") = some yv)
    (hcv : confValue (lookupField fs "confidenceScore") = some cv)
    (hav : altValue (lookupField fs "alternativeTitle") = some av)
    (hkey : env.tmdbKey = some k)
    (hsearch : ∀ ti y, env.search ti y = .ok ⟨some (m :: rest)⟩)
    (hdet : env.details m.id = .ok d) (hdid : d.id = m.id)
    (hcred : env.credits m.id = .ok cr) :
    POST env body =
      (200, .success
        (buildMovieRecommendation ⟨trimString t, yv, trimString e, out, cv, av⟩ d cr)
        "mood" "gemini-pro") ∧
    (buildMovieRecommendation ⟨trimString t, yv, trimString e, out, cv, av⟩
        d cr).tmdbId = m.id ∧
    (buildMovieRecommendation ⟨trimString t, yv, trimString e, out, cv, av⟩
        d cr).matchReasons.length = rs.length := by
  have hparse : parseAIResponse env.decode text =
      ⟨trimString t, yv, trimString e, out, cv, av⟩ :=
    parseAIResponse_reduces env.decode text s fs t e rs out yv cv av
      hspan hdec hmt ht hex he hmr hout hyv hcv hav
  have hgen : generateRecommendation env.decode env.ai =
      .ok ⟨trimString t, yv, trimString e, out, cv, av⟩ := by
    rw [henvai]
    show Except.ok (parseAIResponse env.decode text) = _
    rw [hparse]
  have hqt : quizTypeOf body = "mood" := by
    unfold isTag at hmood
    cases hty0 : body.getField "type" with
    | none => rw [hty0] at hmood; exact absurd hmood (by simp)
    | some v0 =>
      cases v0 with
      | str ss =>
        rw [hty0] at hmood
        simp at hmood
        unfold quizTypeOf
        rw [hty0, hmood]
      | null => rw [hty0] at hmood; exact absurd hmood (by simp)
      | bool b => rw [hty0] at hmood; exact absurd hmood (by simp)
      | num q => rw [hty0] at hmood; exact absurd hmood (by simp)
      | arr xs => rw [hty0] at hmood; exact absurd hmood (by simp)
      | obj gs => rw [hty0] at hmood; exact absurd hmood (by simp)
  have henrich : enrichMovieWithTMDB env.tmdbKey env.search env.details env.credits
      ⟨trimString t, yv, trimString e, out, cv, av⟩ =
      .ok (buildMovieRecommendation
        ⟨trimString t, yv, trimString e, out, cv, av⟩ d cr) := by
    rw [hkey]
    unfold enrichMovieWithTMDB searchMovie
    rw [hsearch]
    show (match getMovieDetails env.details m.id with
      | Except.error err => Except.error err
      | Except.ok movieDetails =>
        match getMovieCredits env.credits m.id with
        | Except.error err => Except.error err
        | Except.ok movieCredits =>
          Except.ok (buildMovieRecommendation
            ⟨trimString t, yv, trimString e, out, cv, av⟩
            movieDetails movieCredits)) = _
    unfold getMovieDetails getMovieCredits
    rw [hdet, hcred]
  have hpost : postTry env body =
      .ok (buildMovieRecommendation
        ⟨trimString t, yv, trimString e, out, cv, av⟩ d cr, "mood") := by
    unfold postTry
    rw [hvalid]
    show (generateRecommendation env.decode env.ai).bind _ = _
    rw [hgen]
    show (enrichMovieWithTMDB env.tmdbKey env.search env.details env.credits
      ⟨trimString t, yv, trimString e, out, cv, av⟩).map _ = _
    rw [henrich]
    show Except.ok (buildMovieRecommendation
      ⟨trimString t, yv, trimString e, out, cv, av⟩ d cr, quizTypeOf body) = _
    rw [hqt]
  refine ⟨?_, hdid, trimAll_length rs out hout⟩
  unfold POST
  rw [hpost]

/-- First (and only) search result for the C6 witness. -/
def wMovie : TMDBMovie := ⟨42, "Heat"⟩

/-- Details record for the C6 witness, carrying the searched id. -/
def wDetails6 : TMDBMovieDetails :=
  ⟨42, "Heat", "o", none, none, "1995-12-15", [], mkRat 8 1, 100,
   mkRat 170 1, some "tt0113277"⟩

/-- Credits record for the C6 witness. -/
def wCredits6 : TMDBCredits := ⟨42, []⟩

/-- Environment for the C6 witness: happy-path AI reply (title "Heat"),
one search result, details and credits succeed. -/
def env6 : PostEnv :=
  ⟨fun _ => some cx11Obj, .reply "\x7bz\x7d", some "k",
   fun _ _ => .ok ⟨some [wMovie]⟩, fun _ => .ok wDetails6,
   fun _ => .ok wCredits6⟩

/-- C6 witness: the end-to-end run on concrete data returns the success
envelope with tmdbId 42 (the first search result's id) and one reason. -/
theorem POST_mood_success_witness :
    POST env6 goodMood =
      (200, .success
        (buildMovieRecommendation
          ⟨trimString "Heat", none, trimString "E.", ["r1"], mkRat 4 5, none⟩
          wDetails6 wCredits6)
        "mood" "gemini-pro") ∧
    (buildMovieRecommendation
        ⟨trimString "Heat", none, trimString "E.", ["r1"], mkRat 4 5, none⟩
        wDetails6 wCredits6).tmdbId = wMovie.id ∧
    (buildMovieRecommendation
        ⟨trimString "Heat", none, trimString "E.", ["r1"], mkRat 4 5, none⟩
        wDetails6 wCredits6).matchReasons.length = [JsonValue.str "r1"].length :=
  POST_mood_success env6 goodMood "\x7bz\x7d" "\x7bz\x7d"
    [("movieTitle", .str "Heat"), ("explanation", .str "E."),
     ("matchReasons", .arr [.str "r1"])]
    "Heat" "E." [.str "r1"] ["r1"] none (mkRat 4 5) none "k" wMovie []
    wDetails6 wCredits6
    rfl rfl rfl rfl rfl rfl (by decide) rfl (by decide) rfl rfl rfl rfl rfl rfl
    (fun _ _ => rfl) rfl rfl rfl

end FilmFinder
